import Mathlib

/-!
Shallow embedding of the ANSI control-sequence dispatcher from `src/ansi.rs`
(alacritty). The dispatcher translates a completed CSI sequence (parameter
list, intermediate bytes, ignore flag, final byte) into a list of capability
calls on the `Handler` trait. Machine integers are modelled as `Int` (i64
parameters) and `Nat` (usize), with wrapping casts made explicit. A result of
`none` models a Rust panic (slice index out of bounds); `some calls` models a
normal return having delivered `calls` to the handler, in order.
-/

namespace Ansi

/-- Palette colors, ordinals 0..15 (Black=0 .. BrightWhite=15). -/
inductive Color
  | Black
  | Red
  | Green
  | Yellow
  | Blue
  | Magenta
  | Cyan
  | White
  | BrightBlack
  | BrightRed
  | BrightGreen
  | BrightYellow
  | BrightBlue
  | BrightMagenta
  | BrightCyan
  | BrightWhite
deriving DecidableEq, Repr

/-- RGB triple; fields are u8 values (0..255 by construction in parse_color). -/
structure Rgb where
  r : Nat
  g : Nat
  b : Nat
deriving DecidableEq, Repr

/-- Terminal character attributes (enum Attr in the source). -/
inductive Attr
  | Reset
  | Bold
  | Dim
  | Italic
  | Underscore
  | BlinkSlow
  | BlinkFast
  | Reverse
  | Hidden
  | Strike
  | CancelBoldDim
  | CancelItalic
  | CancelUnderline
  | CancelBlink
  | CancelReverse
  | CancelHidden
  | CancelStrike
  | Foreground (c : Color)
  | ForegroundSpec (spec : Rgb)
  | Background (c : Color)
  | BackgroundSpec (spec : Rgb)
  | DefaultForeground
  | DefaultBackground
deriving DecidableEq, Repr

/-- Terminal modes (enum Mode in the source). -/
inductive Mode
  | CursorKeys
  | Origin
  | BlinkingCursor
  | ShowCursor
  | SwapScreenAndSetRestoreCursor
deriving DecidableEq, Repr

/-- Mode::from_primitive: resolve a numeric mode code in the private or the
public namespace. The public namespace resolves nothing. -/
def Mode.from_primitive (priv : Bool) (num : Int) : Option Mode :=
  if priv then
    match num with
    | 1 => some Mode.CursorKeys
    | 6 => some Mode.Origin
    | 12 => some Mode.BlinkingCursor
    | 25 => some Mode.ShowCursor
    | 1049 => some Mode.SwapScreenAndSetRestoreCursor
    | _ => none
  else
    none

/-- Line-clear scopes (enum LineClearMode). -/
inductive LineClearMode
  | Right
  | Left
  | All
deriving DecidableEq, Repr

/-- Screen-clear scopes (enum ClearMode). -/
inductive ClearMode
  | Below
  | Above
  | All
deriving DecidableEq, Repr

/-- Tab-stop-clear scopes (enum TabulationClearMode). -/
inductive TabulationClearMode
  | Current
  | All
deriving DecidableEq, Repr

/-- One capability call on the Handler trait, with its arguments.
Line and Column newtypes are modelled as Nat. -/
inductive Call
  | insert_blank (n : Nat)
  | move_up (n : Nat)
  | move_down (n : Nat)
  | identify_terminal
  | move_forward (n : Nat)
  | move_backward (n : Nat)
  | move_down_and_cr (n : Nat)
  | move_up_and_cr (n : Nat)
  | clear_tabs (m : TabulationClearMode)
  | goto_col (n : Nat)
  | goto (line col : Nat)
  | move_forward_tabs (n : Int)
  | clear_screen (m : ClearMode)
  | clear_line (m : LineClearMode)
  | scroll_up (n : Nat)
  | scroll_down (n : Nat)
  | insert_blank_lines (n : Nat)
  | unset_mode (m : Mode)
  | set_mode (m : Mode)
  | delete_lines (n : Nat)
  | erase_chars (n : Nat)
  | delete_chars (n : Nat)
  | move_backward_tabs (n : Int)
  | goto_line (n : Nat)
  | terminal_attribute (a : Attr)
  | set_scrolling_region (top bottom : Nat)
  | save_cursor_position
  | restore_cursor_position
deriving DecidableEq, Repr

/-- Rust cast `as usize` applied to an i64 on a 64-bit target:
two's-complement reinterpretation, i.e. reduction modulo 2^64. -/
def as_usize (v : Int) : Nat := (v % (2 ^ 64 : Int)).toNat

/-- Rust cast `as i64` applied to a usize on a 64-bit target:
two's-complement reinterpretation of the low 64 bits. -/
def as_i64 (n : Nat) : Int :=
  let m : Nat := n % 2 ^ 64
  if m < 2 ^ 63 then (m : Int) else (m : Int) - 2 ^ 64

/-- Macro arg_or_default from csi_dispatch: `args.get(idx)`, with a present
value of 0 treated like an absent value, falling back to `dflt`. -/
def arg_or_default (args : List Int) (idx : Nat) (dflt : Int) : Int :=
  match args[idx]? with
  | some v => if v = 0 then dflt else v
  | none => dflt

/-- Model of fn parse_color. `attrs` is the slice the caller passes
(`&args[i..]`) and `i` is the caller's cursor into `args`, passed by mutable
reference; the source indexes the local slice with the global cursor.
`none` models a Rust index-out-of-bounds panic; otherwise the result is
`some (parsed, i')` where `parsed` is the `Option<Rgb>` return value and `i'`
the cursor after the call. -/
def parse_color (attrs : List Int) (i : Nat) : Option (Option Rgb × Nat) :=
  if attrs.length < 2 then
    some (none, i)
  else
    match attrs[i + 1]? with
    | none => none
    | some sel =>
      if sel = 2 then
        if attrs.length < 5 then
          some (none, i)
        else
          match attrs[i + 2]?, attrs[i + 3]?, attrs[i + 4]? with
          | some r, some g, some b =>
            let i' := i + 4
            if (0 ≤ r ∧ r ≤ 255) ∧ (0 ≤ g ∧ g ≤ 255) ∧ (0 ≤ b ∧ b ≤ 255) then
              some (some ⟨r.toNat, g.toNat, b.toNat⟩, i')
            else
              some (none, i')
          | _, _, _ => none
      else
        some (none, i)

theorem parse_color_cursor_le (attrs : List Int) (i : Nat) (res : Option Rgb)
    (j : Nat) (h : parse_color attrs i = some (res, j)) : i ≤ j := by
  unfold parse_color at h
  repeat' split at h
  all_goals first
    | (simp only [Option.some.injEq, Prod.mk.injEq] at h; omega)
    | simp_all

/-- Simple (single-parameter) SGR attribute table: the literal arms of the
source's match in the 'm' branch of csi_dispatch, excluding 38 and 48 which
introduce a color sub-specification and are handled by the loop itself.
Values the source's match sends to its default arm map to `none`
(the unhandled! outcome). -/
def sgrSimpleAttr : Int → Option Attr
  | 0 => some Attr.Reset
  | 1 => some Attr.Bold
  | 2 => some Attr.Dim
  | 3 => some Attr.Italic
  | 4 => some Attr.Underscore
  | 5 => some Attr.BlinkSlow
  | 6 => some Attr.BlinkFast
  | 7 => some Attr.Reverse
  | 8 => some Attr.Hidden
  | 9 => some Attr.Strike
  | 22 => some Attr.CancelBoldDim
  | 23 => some Attr.CancelItalic
  | 24 => some Attr.CancelUnderline
  | 25 => some Attr.CancelBlink
  | 27 => some Attr.CancelReverse
  | 28 => some Attr.CancelHidden
  | 29 => some Attr.CancelStrike
  | 30 => some (Attr.Foreground Color.Black)
  | 31 => some (Attr.Foreground Color.Red)
  | 32 => some (Attr.Foreground Color.Green)
  | 33 => some (Attr.Foreground Color.Yellow)
  | 34 => some (Attr.Foreground Color.Blue)
  | 35 => some (Attr.Foreground Color.Magenta)
  | 36 => some (Attr.Foreground Color.Cyan)
  | 37 => some (Attr.Foreground Color.White)
  | 39 => some Attr.DefaultForeground
  | 40 => some (Attr.Background Color.Black)
  | 41 => some (Attr.Background Color.Red)
  | 42 => some (Attr.Background Color.Green)
  | 43 => some (Attr.Background Color.Yellow)
  | 44 => some (Attr.Background Color.Blue)
  | 45 => some (Attr.Background Color.Magenta)
  | 46 => some (Attr.Background Color.Cyan)
  | 47 => some (Attr.Background Color.White)
  | 49 => some Attr.DefaultBackground
  | 90 => some (Attr.Foreground Color.BrightBlack)
  | 91 => some (Attr.Foreground Color.BrightRed)
  | 92 => some (Attr.Foreground Color.BrightGreen)
  | 93 => some (Attr.Foreground Color.BrightYellow)
  | 94 => some (Attr.Foreground Color.BrightBlue)
  | 95 => some (Attr.Foreground Color.BrightMagenta)
  | 96 => some (Attr.Foreground Color.BrightCyan)
  | 97 => some (Attr.Foreground Color.BrightWhite)
  | 100 => some (Attr.Foreground Color.BrightBlack)
  | 101 => some (Attr.Foreground Color.BrightRed)
  | 102 => some (Attr.Foreground Color.BrightGreen)
  | 103 => some (Attr.Foreground Color.BrightYellow)
  | 104 => some (Attr.Foreground Color.BrightBlue)
  | 105 => some (Attr.Foreground Color.BrightMagenta)
  | 106 => some (Attr.Foreground Color.BrightCyan)
  | 107 => some (Attr.Foreground Color.BrightWhite)
  | _ => none

/-- Model of the C-style loop in the 'm' arm of csi_dispatch, iterating the
parameter list with cursor `i`. `acc` holds the capability calls delivered so
far, most recent first. On 38/48 the loop calls parse_color on `args[i..]`
with the global cursor; a parse failure breaks the loop (calls so far stand),
a success emits the spec attribute and resumes past the consumed parameters.
An unrecognized value hits unhandled!, which returns from csi_dispatch (calls
so far stand). `none` models a panic inside parse_color. The `fuel` argument
only bounds the iteration count for structural recursion: every iteration
advances `i` by at least one (parse_color_cursor_le), so any fuel of at least
`args.length - i` never runs out (sgrLoopF_fuel_irrelevant). -/
def sgrLoopF (args : List Int) : Nat → Nat → List Call → Option (List Call)
  | 0, _, acc => some acc.reverse
  | fuel + 1, i, acc =>
    if h : i < args.length then
      if args[i] = 38 then
        match parse_color (args.drop i) i with
        | none => none
        | some (none, _) => some acc.reverse
        | some (some spec, j) =>
          sgrLoopF args fuel (j + 1) (Call.terminal_attribute (Attr.ForegroundSpec spec) :: acc)
      else if args[i] = 48 then
        match parse_color (args.drop i) i with
        | none => none
        | some (none, _) => some acc.reverse
        | some (some spec, j) =>
          sgrLoopF args fuel (j + 1) (Call.terminal_attribute (Attr.BackgroundSpec spec) :: acc)
      else
        match sgrSimpleAttr args[i] with
        | some a => sgrLoopF args fuel (i + 1) (Call.terminal_attribute a :: acc)
        | none => some acc.reverse
    else
      some acc.reverse

/-- Entry into the SGR loop at cursor `i`, with sufficient fuel. -/
def sgrLoop (args : List Int) (i : Nat) (acc : List Call) : Option (List Call) :=
  sgrLoopF args (args.length - i) i acc

theorem sgrLoopF_fuel_irrelevant (args : List Int) (f₁ : Nat) :
    ∀ f₂ i acc, args.length - i ≤ f₁ → args.length - i ≤ f₂ →
      sgrLoopF args f₁ i acc = sgrLoopF args f₂ i acc := by
  induction f₁ with
  | zero =>
    intro f₂ i acc h₁ h₂
    cases f₂ with
    | zero => rfl
    | succ f₂ =>
      simp only [sgrLoopF]
      rw [dif_neg (by omega)]
  | succ f₁ ih =>
    intro f₂ i acc h₁ h₂
    cases f₂ with
    | zero =>
      simp only [sgrLoopF]
      rw [dif_neg (by omega)]
    | succ f₂ =>
      simp only [sgrLoopF]
      by_cases h : i < args.length
      · rw [dif_pos h, dif_pos h]
        by_cases h38 : args[i] = 38
        · rw [if_pos h38, if_pos h38]
          cases hpc : parse_color (args.drop i) i with
          | none => rfl
          | some p =>
            rcases p with ⟨_ | spec, j⟩
            · rfl
            · have := parse_color_cursor_le _ _ _ _ hpc
              exact ih _ _ _ (by omega) (by omega)
        · rw [if_neg h38, if_neg h38]
          by_cases h48 : args[i] = 48
          · rw [if_pos h48, if_pos h48]
            cases hpc : parse_color (args.drop i) i with
            | none => rfl
            | some p =>
              rcases p with ⟨_ | spec, j⟩
              · rfl
              · have := parse_color_cursor_le _ _ _ _ hpc
                exact ih _ _ _ (by omega) (by omega)
          · rw [if_neg h48, if_neg h48]
            cases sgrSimpleAttr args[i] with
            | none => rfl
            | some a => exact ih _ _ _ (by omega) (by omega)
      · rw [dif_neg h, dif_neg h]

/-- Model of fn csi_dispatch, parameterized by the handler's live line count
(TermInfo::lines). Returns the list of capability calls delivered to the
handler, in order, or `none` for a panic. The ignore flag is received and,
as in the source (binder _ignore), never consulted. -/
def csi_dispatch (lines : Nat) (args : List Int) (intermediates : List Nat)
    (_ignore : Bool) (action : Char) : Option (List Call) :=
  let priv : Bool := intermediates.head? == some 0x3f
  if action = '@' then
    some [Call.insert_blank (as_usize (arg_or_default args 0 1))]
  else if action = 'A' then
    some [Call.move_up (as_usize (arg_or_default args 0 1))]
  else if action = 'B' ∨ action = 'e' then
    some [Call.move_down (as_usize (arg_or_default args 0 1))]
  else if action = 'c' then
    some [Call.identify_terminal]
  else if action = 'C' ∨ action = 'a' then
    some [Call.move_forward (as_usize (arg_or_default args 0 1))]
  else if action = 'D' then
    some [Call.move_backward (as_usize (arg_or_default args 0 1))]
  else if action = 'E' then
    some [Call.move_down_and_cr (as_usize (arg_or_default args 0 1))]
  else if action = 'F' then
    some [Call.move_up_and_cr (as_usize (arg_or_default args 0 1))]
  else if action = 'g' then
    let m := arg_or_default args 0 0
    if m = 0 then some [Call.clear_tabs TabulationClearMode.Current]
    else if m = 3 then some [Call.clear_tabs TabulationClearMode.All]
    else some []
  else if action = 'G' ∨ action = Char.ofNat 96 then
    some [Call.goto_col (as_usize (arg_or_default args 0 1) - 1)]
  else if action = 'H' ∨ action = 'f' then
    let y := as_usize (arg_or_default args 0 1)
    let x := as_usize (arg_or_default args 1 1)
    some [Call.goto (y - 1) (x - 1)]
  else if action = 'I' then
    some [Call.move_forward_tabs (arg_or_default args 0 1)]
  else if action = 'J' then
    let m := arg_or_default args 0 0
    if m = 0 then some [Call.clear_screen ClearMode.Below]
    else if m = 1 then some [Call.clear_screen ClearMode.Above]
    else if m = 2 then some [Call.clear_screen ClearMode.All]
    else some []
  else if action = 'K' then
    let m := arg_or_default args 0 0
    if m = 0 then some [Call.clear_line LineClearMode.Right]
    else if m = 1 then some [Call.clear_line LineClearMode.Left]
    else if m = 2 then some [Call.clear_line LineClearMode.All]
    else some []
  else if action = 'S' then
    some [Call.scroll_up (as_usize (arg_or_default args 0 1))]
  else if action = 'T' then
    some [Call.scroll_down (as_usize (arg_or_default args 0 1))]
  else if action = 'L' then
    some [Call.insert_blank_lines (as_usize (arg_or_default args 0 1))]
  else if action = 'l' then
    match Mode.from_primitive priv (arg_or_default args 0 0) with
    | some m => some [Call.unset_mode m]
    | none => some []
  else if action = 'M' then
    some [Call.delete_lines (as_usize (arg_or_default args 0 1))]
  else if action = 'X' then
    some [Call.erase_chars (as_usize (arg_or_default args 0 1))]
  else if action = 'P' then
    some [Call.delete_chars (as_usize (arg_or_default args 0 1))]
  else if action = 'Z' then
    some [Call.move_backward_tabs (arg_or_default args 0 1)]
  else if action = 'd' then
    some [Call.goto_line (as_usize (arg_or_default args 0 1) - 1)]
  else if action = 'h' then
    match Mode.from_primitive priv (arg_or_default args 0 0) with
    | some m => some [Call.set_mode m]
    | none => some []
  else if action = 'm' then
    if args.length = 0 then
      some [Call.terminal_attribute Attr.Reset]
    else
      sgrLoop args 0 []
  else if action = 'n' then
    some [Call.identify_terminal]
  else if action = 'r' then
    if priv then some []
    else
      let top := as_usize (arg_or_default args 0 1) - 1
      let bottom := as_usize (arg_or_default args 1 (as_i64 lines))
      some [Call.set_scrolling_region top bottom]
  else if action = 's' then
    some [Call.save_cursor_position]
  else if action = 'u' then
    some [Call.restore_cursor_position]
  else
    some []

/-- Spec-side SGR mapping table, written from the spec's words as amended for
claim C4: 0→Reset through 9→Strike, the cancellations for 22–25 and 27–29
(value 26 is recognized by nothing in the code and is excluded by the
amendment), indexed foregrounds for 30–37, 90–97 and 100–107, 39→default
foreground, indexed backgrounds for 40–47, 49→default background. -/
def sgrClaimTable : List (Int × Attr) :=
  [(0, Attr.Reset), (1, Attr.Bold), (2, Attr.Dim), (3, Attr.Italic),
   (4, Attr.Underscore), (5, Attr.BlinkSlow), (6, Attr.BlinkFast),
   (7, Attr.Reverse), (8, Attr.Hidden), (9, Attr.Strike),
   (22, Attr.CancelBoldDim), (23, Attr.CancelItalic),
   (24, Attr.CancelUnderline), (25, Attr.CancelBlink),
   (27, Attr.CancelReverse), (28, Attr.CancelHidden), (29, Attr.CancelStrike),
   (30, Attr.Foreground Color.Black), (31, Attr.Foreground Color.Red),
   (32, Attr.Foreground Color.Green), (33, Attr.Foreground Color.Yellow),
   (34, Attr.Foreground Color.Blue), (35, Attr.Foreground Color.Magenta),
   (36, Attr.Foreground Color.Cyan), (37, Attr.Foreground Color.White),
   (39, Attr.DefaultForeground),
   (40, Attr.Background Color.Black), (41, Attr.Background Color.Red),
   (42, Attr.Background Color.Green), (43, Attr.Background Color.Yellow),
   (44, Attr.Background Color.Blue), (45, Attr.Background Color.Magenta),
   (46, Attr.Background Color.Cyan), (47, Attr.Background Color.White),
   (49, Attr.DefaultBackground),
   (90, Attr.Foreground Color.BrightBlack), (91, Attr.Foreground Color.BrightRed),
   (92, Attr.Foreground Color.BrightGreen), (93, Attr.Foreground Color.BrightYellow),
   (94, Attr.Foreground Color.BrightBlue), (95, Attr.Foreground Color.BrightMagenta),
   (96, Attr.Foreground Color.BrightCyan), (97, Attr.Foreground Color.BrightWhite),
   (100, Attr.Foreground Color.BrightBlack), (101, Attr.Foreground Color.BrightRed),
   (102, Attr.Foreground Color.BrightGreen), (103, Attr.Foreground Color.BrightYellow),
   (104, Attr.Foreground Color.BrightBlue), (105, Attr.Foreground Color.BrightMagenta),
   (106, Attr.Foreground Color.BrightCyan), (107, Attr.Foreground Color.BrightWhite)]

/-- C1: refuted by the code. On the SGR parameter list [0, 38, 2] the color
sub-spec parser indexes `attrs[i+1] = attrs[2]` into the two-element slice
`args[1..] = [38, 2]` (the global cursor is used on the local slice), an
out-of-bounds access: dispatching this sequence panics instead of degrading
to a no-op. `none` is the model's panic outcome. -/
theorem sgr_color_subspec_oob :
    csi_dispatch 24 [0, 38, 2] [] false 'm' = none := by decide

/-- C2 counterexample: in the SGR list [99, 1] the unrecognized value 99 hits
the unhandled! macro, which returns from csi_dispatch altogether; the
recognized code 1 (Bold) that follows it is never processed, so no capability
call at all is delivered. -/
theorem sgr_unrecognized_cex :
    csi_dispatch 24 [99, 1] [] false 'm' = some [] ∧
    Call.terminal_attribute Attr.Bold ∉
      (csi_dispatch 24 [99, 1] [] false 'm').getD [] := by decide

/-- C2 as amended: an unrecognized SGR parameter value is reported and the
whole dispatch returns at that point; attributes already delivered for
earlier parameters stand, but the remaining parameters of the list are not
processed. -/
theorem sgr_unrecognized_aborts (args : List Int) (i : Nat) (acc : List Call)
    (v : Int) (hv : args[i]? = some v) (h38 : v ≠ 38) (h48 : v ≠ 48)
    (hun : sgrSimpleAttr v = none) :
    sgrLoop args i acc = some acc.reverse := by
  obtain ⟨hlt, hvi⟩ := List.getElem?_eq_some.mp hv
  unfold sgrLoop
  obtain ⟨k, hk⟩ : ∃ k, args.length - i = k + 1 := ⟨args.length - i - 1, by omega⟩
  rw [hk]
  simp only [sgrLoopF]
  rw [dif_pos hlt, if_neg (by rw [hvi]; exact h38), if_neg (by rw [hvi]; exact h48),
    hvi, hun]

theorem sgr_unrecognized_aborts_witness :
    ([99, 1] : List Int)[0]? = some 99 ∧ sgrLoop [99, 1] 0 [] = some [] :=
  ⟨by decide,
   sgr_unrecognized_aborts [99, 1] 0 [] 99 (by decide) (by decide) (by decide)
     (by decide)⟩

/-- C3: refuted by the code. In the SGR list [31, 38, 9, 2, 10, 20, 30] the
color sub-spec after 38 has colorspace selector 9 (the element right after
38), so per the spec nothing should be emitted for it and the rest of the
list should be aborted. Because parse_color indexes the local slice
`args[1..]` with the global cursor, it instead reads 2 (= args[3]) as the
selector, fabricates an RGB attribute from channels (10, 20, 30), and then
reinterprets the trailing parameter 30 as an unrelated indexed-foreground
attribute. -/
theorem sgr_bad_selector_misparses :
    csi_dispatch 24 [31, 38, 9, 2, 10, 20, 30] [] false 'm'
      = some [Call.terminal_attribute (Attr.Foreground Color.Red),
              Call.terminal_attribute (Attr.ForegroundSpec ⟨10, 20, 30⟩),
              Call.terminal_attribute (Attr.Foreground Color.Black)] := by decide

/-- C4 counterexample: the claim maps every value in 22–29 to a cancellation
attribute, but the SGR value 26 matches no arm of the dispatch table: the
singleton list [26] delivers no attribute at all (unhandled! returns with an
empty call chain). -/
theorem sgr_26_unrecognized_cex :
    csi_dispatch 24 [26] [] false 'm' = some [] := by decide

/-- C4 as amended: an empty SGR parameter list delivers exactly one Reset
attribute, and every recognized simple parameter value delivers exactly the
one attribute the spec table pairs it with — where the cancellation range is
22–25 and 27–29, excluding the unrecognized value 26. -/
theorem sgr_simple_param_mapping (v : Int) (a : Attr)
    (h : (v, a) ∈ sgrClaimTable) :
    csi_dispatch 24 [] [] false 'm' = some [Call.terminal_attribute Attr.Reset] ∧
    csi_dispatch 24 [v] [] false 'm' = some [Call.terminal_attribute a] := by
  have hall : ∀ p ∈ sgrClaimTable,
      csi_dispatch 24 [p.1] [] false 'm' = some [Call.terminal_attribute p.2] := by
    decide
  exact ⟨by decide, hall (v, a) h⟩

theorem sgr_simple_param_mapping_witness :
    ((31 : Int), Attr.Foreground Color.Red) ∈ sgrClaimTable ∧
    (csi_dispatch 24 [] [] false 'm' = some [Call.terminal_attribute Attr.Reset] ∧
     csi_dispatch 24 [31] [] false 'm'
       = some [Call.terminal_attribute (Attr.Foreground Color.Red)]) :=
  ⟨by decide, sgr_simple_param_mapping 31 (Attr.Foreground Color.Red) (by decide)⟩

/-- C5: a positional CSI parameter that is absent, or present with value
zero, is replaced by the action's default; in particular dispatching 'H'
with no parameters positions the cursor at zero-based row 0, column 0
(defaults 1 and 1, converted from 1-origin to 0-origin). -/
theorem csi_default_substitution (args : List Int) (idx : Nat) (d : Int)
    (h : args[idx]? = none ∨ args[idx]? = some 0) :
    arg_or_default args idx d = d ∧
    csi_dispatch 24 [] [] false 'H' = some [Call.goto 0 0] := by
  refine ⟨?_, by decide⟩
  rcases h with h | h <;> simp [arg_or_default, h]

theorem csi_default_substitution_witness :
    (([] : List Int)[0]? = none) ∧
    (arg_or_default [] 0 7 = 7 ∧
     csi_dispatch 24 [] [] false 'H' = some [Call.goto 0 0]) :=
  ⟨by decide, csi_default_substitution [] 0 7 (Or.inl (by decide))⟩

/-- C6: dispatching 'r' with no parameters sets the scrolling region to the
half-open range [0, L) where L is the line count the dimension interface
reports at dispatch time (for a 24-line handler, rows [0, 24)), and no other
final byte's dispatch depends on the reported line count at all. -/
theorem scrolling_region_live_lines (L : Nat) (hL : L < 2 ^ 64) :
    csi_dispatch L [] [] false 'r' = some [Call.set_scrolling_region 0 L] ∧
    ∀ L₁ L₂ args ints ig a, a ≠ 'r' →
      csi_dispatch L₁ args ints ig a = csi_dispatch L₂ args ints ig a := by
  constructor
  · have hcast : as_usize (as_i64 L) = L := by
      simp only [as_usize, as_i64]
      split <;> omega
    have hstep : csi_dispatch L [] [] false 'r'
        = some [Call.set_scrolling_region 0 (as_usize (as_i64 L))] := rfl
    rw [hstep, hcast]
  · intro L₁ L₂ args ints ig a ha
    simp only [csi_dispatch]
    rw [if_neg ha, if_neg ha]

theorem scrolling_region_live_lines_witness :
    (24 : Nat) < 2 ^ 64 ∧
    (csi_dispatch 24 [] [] false 'r' = some [Call.set_scrolling_region 0 24] ∧
     csi_dispatch 1 [5] [] false 'A' = csi_dispatch 2 [5] [] false 'A') :=
  ⟨by norm_num,
   (scrolling_region_live_lines 24 (by norm_num)).1,
   (scrolling_region_live_lines 24 (by norm_num)).2 1 2 [5] [] false 'A' (by decide)⟩

/-- C7: Mode.from_primitive is total: the public namespace resolves nothing,
the private namespace resolves exactly the codes 1, 6, 12, 25 and 1049 to
their modes, and every other code in either namespace yields no mode. -/
theorem mode_from_primitive_total (n : Int) :
    Mode.from_primitive false n = none ∧
    Mode.from_primitive true 1 = some Mode.CursorKeys ∧
    Mode.from_primitive true 6 = some Mode.Origin ∧
    Mode.from_primitive true 12 = some Mode.BlinkingCursor ∧
    Mode.from_primitive true 25 = some Mode.ShowCursor ∧
    Mode.from_primitive true 1049 = some Mode.SwapScreenAndSetRestoreCursor ∧
    (n ∉ ([1, 6, 12, 25, 1049] : List Int) → Mode.from_primitive true n = none) := by
  refine ⟨rfl, by decide, by decide, by decide, by decide, by decide, fun h => ?_⟩
  simp only [List.mem_cons, List.not_mem_nil, or_false, not_or] at h
  obtain ⟨h1, h6, h12, h25, h1049⟩ := h
  unfold Mode.from_primitive
  rw [if_pos rfl]
  split <;> simp_all

theorem mode_from_primitive_total_witness :
    Mode.from_primitive false 25 = none ∧
    ((7 : Int) ∉ ([1, 6, 12, 25, 1049] : List Int)) ∧
    Mode.from_primitive true 7 = none :=
  ⟨(mode_from_primitive_total 25).1, by decide,
   (mode_from_primitive_total 7).2.2.2.2.2.2 (by decide)⟩

/-- C8: the SGR parameter list [38, 2, 128, 66, 255] delivers exactly one
foreground-RGB attribute with channels (128, 66, 255): the sub-spec parser
consumes the selector and the three channels and the cursor moves past them. -/
theorem sgr_truecolor_foreground :
    csi_dispatch 24 [38, 2, 128, 66, 255] [] false 'm'
      = some [Call.terminal_attribute (Attr.ForegroundSpec ⟨128, 66, 255⟩)] := by
  decide

/-- C9: a negative CSI parameter is not treated as absent — only the exact
value 0 triggers the default — and the cast to usize wraps modulo 2^64, so
dispatching 'A' with parameter -1 asks the handler to move up 2^64 - 1
rows instead of the default 1. -/
theorem negative_param_wraps (v : Int) (hneg : v < 0) :
    arg_or_default [v] 0 1 = v ∧
    csi_dispatch 24 [v] [] false 'A' = some [Call.move_up (as_usize v)] ∧
    csi_dispatch 24 [-1] [] false 'A' = some [Call.move_up (2 ^ 64 - 1)] := by
  have h1 : arg_or_default [v] 0 1 = v := by
    show (if v = 0 then (1 : Int) else v) = v
    exact if_neg (by omega)
  have hstep : csi_dispatch 24 [v] [] false 'A'
      = some [Call.move_up (as_usize (arg_or_default [v] 0 1))] := rfl
  refine ⟨h1, ?_, by decide⟩
  rw [hstep, h1]

theorem negative_param_wraps_witness :
    (-1 : Int) < 0 ∧
    (arg_or_default [-1] 0 1 = -1 ∧
     csi_dispatch 24 [-1] [] false 'A' = some [Call.move_up (as_usize (-1))] ∧
     csi_dispatch 24 [-1] [] false 'A' = some [Call.move_up (2 ^ 64 - 1)]) :=
  ⟨by decide, negative_param_wraps (-1) (by decide)⟩

/-- C10: the capability calls produced by csi_dispatch are independent of the
lexer's truncation/ignore flag, which the dispatcher receives but never
consults. -/
theorem csi_dispatch_ignore_flag_irrelevant (lines : Nat) (args : List Int)
    (ints : List Nat) (ig₁ ig₂ : Bool) (action : Char) :
    csi_dispatch lines args ints ig₁ action
      = csi_dispatch lines args ints ig₂ action := rfl

end Ansi
